import Mathlib

/-!
Verification development for the `watchtower` graceful-shutdown library.

The definitions below are shallow embeddings of the TypeScript source.  The
authoritative revision of the lifecycle controller is the `Watchtower` class
in `src/unnamed/part_002`; the connection drain manager is
`src/src/HttpServerManager.ts`.  The runtime is a single-threaded event loop,
so every callback (promise continuation, timer callback, event handler) runs
atomically; we model each such callback as one state-transition step.
-/

namespace Watchtower

/-! ## Health aggregator (part_002, lines 56-84 and 243-259) -/

/-- The three boolean fields of the `Watchtower` class that the health query
reads: `_isReady`, `_isHealthy`, `_isShuttingDown`. -/
structure HealthFlags where
  isReady : Bool
  isHealthy : Bool
  isShuttingDown : Bool
deriving DecidableEq, Repr

/-- One registered health-check handler run, for the timing model: the event-loop
time (ms) at which its promise settles, and the boolean it resolves with. -/
structure ProbeRun where
  settleMs : Nat
  result : Bool
deriving DecidableEq, Repr

/-- `Watchtower.areHealthCheckHandlersPassing` (part_002 lines 243-259), timing
model, for runs in which every handler resolves (none throws).

The code arms a timer when `healthCheckTimeoutMs >= 0`; the timer callback
emits an error event and executes `return false` - but that `return` only
returns from the timer callback itself, whose value is discarded, so the
function keeps awaiting `Promise.all` and returns `every(result)` regardless.
The timer fires exactly when the handlers settle later than the timeout
(otherwise `clearTimeout` cancels it first).  Result: the pair
(aggregate boolean, errors emitted). -/
def areHealthCheckHandlersPassing (healthCheckTimeoutMs : Int)
    (probes : List ProbeRun) : Bool × List String :=
  let completionMs : Nat := (probes.map (fun p => p.settleMs)).foldr max 0
  let timerFired :=
    decide (0 ≤ healthCheckTimeoutMs) && decide (healthCheckTimeoutMs < (completionMs : Int))
  (probes.all (fun p => p.result),
   if timerFired then ["health check timeout, service deemed unhealthy"] else [])

/-- Outcome of a single health-check handler invocation: it either resolves
with a boolean or throws/rejects. -/
inductive ProbeOutcome
  | ok (passed : Bool)
  | thrown
deriving DecidableEq, Repr

/-- Whether a probe outcome is a throw/rejection. -/
def ProbeOutcome.isThrown : ProbeOutcome → Bool
  | .thrown => true
  | .ok _ => false

/-- The boolean a settled probe resolved with (irrelevant default for throws). -/
def ProbeOutcome.value : ProbeOutcome → Bool
  | .thrown => true
  | .ok b => b

/-- `Watchtower.areHealthCheckHandlersPassing` (part_002 lines 243-259),
exception model.  `Promise.all(this.healthCheckHandlers.map((handler) =>
handler()))` invokes every handler, and rejects as soon as any handler
throws or rejects; there is no try/catch, so the rejection escapes the
function. -/
def areHealthCheckHandlersPassingE (probes : List ProbeOutcome) :
    Except String Bool :=
  if probes.any ProbeOutcome.isThrown then .error "probe rejection"
  else .ok (probes.all ProbeOutcome.value)

/-- `Watchtower.isHealthy` (part_002 lines 56-64).  `pre` holds the flag values
when the call starts, `post` the values when the awaited handlers have settled
(the flags can change across the `await`).  Line 61 is
`this._isHealthy = this._isHealthy && await this.areHealthCheckHandlersPassing();`
and JS `&&` short-circuits: when the stored `_isHealthy` flag is `false` the
handlers are never invoked, nothing can reject, no suspension happens (so the
flags cannot change), and the query returns `false`.  Only when the flag is
`true` are the probes run.  Returns the pair (query result, value of
`_isHealthy` after the call); a probe rejection propagates out of the query
and leaves `_isHealthy` unassigned. -/
def isHealthy (pre post : HealthFlags) (probes : List ProbeOutcome) :
    Except String (Bool × Bool) :=
  if !pre.isReady || pre.isShuttingDown then .ok (false, pre.isHealthy)
  else if pre.isHealthy then
    match areHealthCheckHandlersPassingE probes with
    | .error e => .error e
    | .ok passed =>
      let h := pre.isHealthy && passed
      .ok (h && post.isReady && !post.isShuttingDown, h)
  else .ok (false, false)

/-! ## Beacon registry (part_002, lines 180-197) -/

/-- JS `Array.prototype.indexOf`: index of the first occurrence, `-1` if absent. -/
def jsIndexOf (l : List Nat) (x : Nat) : Int :=
  match l.indexOf? x with
  | some i => (i : Int)
  | none => -1

/-- JS `array.splice(start, 1)`: a negative `start` counts back from the end of
the array, clamped at `0`; one element at the resulting index is removed (none
when the index is past the end). -/
def jsSpliceOne (l : List Nat) (start : Int) : List Nat :=
  let len : Int := (l.length : Int)
  let actual : Nat := (if start < 0 then max (len + start) 0 else min start len).toNat
  l.take actual ++ l.drop (actual + 1)

/-- `beacon.die` from `Watchtower.createBeacon` (part_002 lines 186-191):
`this.beacons.splice(this.beacons.indexOf(beacon), 1)`, with no guard for the
beacon having already been removed.  Beacons are identified by a numeric id. -/
def beaconDie (beacons : List Nat) (b : Nat) : List Nat :=
  jsSpliceOne beacons (jsIndexOf beacons b)

/-! ## Shutdown cleanup phase (part_002, lines 162-178 and 227-241) -/

/-- Outcome of one registered shutdown task. -/
inductive SdTaskOutcome
  | ok
  | failed
deriving DecidableEq, Repr

/-- Whether a shutdown-task outcome is a rejection. -/
def SdTaskOutcome.isFailed : SdTaskOutcome → Bool
  | .failed => true
  | .ok => false

/-- `Watchtower.executeShutdownTasks` (part_002 lines 227-241):
`await Promise.all(this.shutdownTasks.map((task) => task()))`.  The `map`
invokes every task before anything is awaited (first component: number of
tasks invoked); the combined promise rejects if any task rejects, and there
is no try/catch, so the rejection escapes. -/
def executeShutdownTasks (outcomes : List SdTaskOutcome) :
    Nat × Except String Unit :=
  (outcomes.length,
   if outcomes.any SdTaskOutcome.isFailed then .error "shutdown task failed"
   else .ok ())

/-- Observable outcome of the tail of `Watchtower.shutdown` (part_002 lines
162-178) from the point the beacons have drained. -/
structure ShutdownTail where
  tasksInvoked : Nat
  closeEmitted : Bool
  gracefulTimeoutCleared : Bool
  result : Except String Unit
deriving Repr

/-- The cleanup phase of `Watchtower.shutdown`: `await this.executeShutdownTasks()`
followed by `clearTimeout(gracefulShutdownTimeout)` and `this.emit('close')`.
If `executeShutdownTasks` rejects, the remaining statements are skipped and the
rejection propagates to the caller of `shutdown()`. -/
def shutdownCleanupPhase (outcomes : List SdTaskOutcome) : ShutdownTail :=
  let r := executeShutdownTasks outcomes
  match r.2 with
  | .error e => ⟨r.1, false, false, .error e⟩
  | .ok _ => ⟨r.1, true, true, .ok ()⟩

/-! ## Readiness gate (part_002, lines 21-50, 101-134)

`deferredReady` is a promise created in the constructor; `queueStartupTask`
attaches a `.then`/`.catch` pair to every queued task, and the constructor
attaches the ready/failed continuations to `deferredReady` itself.  Because
the runtime is a single-threaded event loop and promise continuations run as
microtasks (which drain before any other event), each task settlement is
modelled as one atomic step that also runs the continuations it unblocks. -/

/-- The three states of a JS promise; it settles at most once. -/
inductive Deferred
  | pending
  | resolved
  | rejected
deriving DecidableEq, Repr

/-- State of the readiness gate: the `deferredReady` promise, the number of
queued startup tasks not yet settled (`startupTasks.length`), the controller
flags, the error events emitted and the `process.exit` code, if any. -/
structure GateState where
  deferredReady : Deferred
  pendingTasks : Nat
  isReady : Bool
  readyEmitted : Bool
  isHealthy : Bool
  isShuttingDown : Bool
  errors : List String
  exitCode : Option Nat
deriving DecidableEq, Repr

/-- The continuations attached to `deferredReady` in the constructor (part_002
lines 40-49), run as a microtask as soon as the deferred first settles: on
resolution `_isReady = true`, `emit('ready')`, `signalHealthy()` (whose guard
passes as the controller is now ready, unless it is shutting down); on
rejection `emit('error', 'service could not become ready')` then
`terminate(1)`, i.e. `process.exit(1)`. -/
def onDeferredSettled (s : GateState) : GateState :=
  match s.deferredReady with
  | .pending => s
  | .resolved =>
    let s := { s with isReady := true, readyEmitted := true }
    if s.isShuttingDown then s else { s with isHealthy := true }
  | .rejected =>
    { s with errors := s.errors ++ ["service could not become ready"],
             exitCode := some 1 }

/-- Settling the `deferredReady` promise via the captured `resolveReady` or
`rejectReady`: a promise settles at most once, so settling an already-settled
deferred is a no-op and does not run the constructor continuations again. -/
def settleDeferred (s : GateState) (target : Deferred) : GateState :=
  match s.deferredReady with
  | .pending => onDeferredSettled { s with deferredReady := target }
  | _ => s

/-- Events the readiness gate reacts to: a queued startup task resolving, a
queued startup task rejecting, and a call to `ready()`. -/
inductive GateEvent
  | taskSuccess
  | taskFailure
  | readyCall
deriving DecidableEq, Repr

/-- Whether an event is the settlement of a queued startup task. -/
def GateEvent.isSettlement : GateEvent → Bool
  | .readyCall => false
  | _ => true

/-- One event-loop step of the readiness gate.
`taskSuccess` is the `.then` handler of `queueStartupTask` (lines 121-128):
splice the task out of `startupTasks`, and resolve the gate if the pending set
became empty while the controller is not ready yet.
`taskFailure` is the `.catch` handler (lines 129-133): emit
`'startup task failed'` and reject the gate (the task is not spliced out).
`readyCall` is `ready()` (lines 101-111): a no-op when already ready or
shutting down; resolves the gate when no startup task is pending. -/
def gateStep (s : GateState) : GateEvent → GateState
  | .taskSuccess =>
    let s := { s with pendingTasks := s.pendingTasks - 1 }
    if !s.isReady && s.pendingTasks == 0 then settleDeferred s .resolved else s
  | .taskFailure =>
    let s := { s with errors := s.errors ++ ["startup task failed"] }
    settleDeferred s .rejected
  | .readyCall =>
    if s.isReady || s.isShuttingDown then s
    else if s.pendingTasks == 0 then settleDeferred s .resolved
    else s

/-- Run a sequence of gate events. -/
def runGate (s : GateState) (events : List GateEvent) : GateState :=
  events.foldl gateStep s

/-- Gate state right after construction with `n` queued startup tasks, none
settled yet. -/
def initGate (n : Nat) : GateState :=
  ⟨.pending, n, false, false, false, false, [], none⟩

/-! ## Shutdown sequencer (part_002, lines 136-178 and 180-209)

`shutdown()` can be triggered any number of times, by an observed termination
signal (`registerSignals`, lines 261-267) or by an explicit call.  Each
invocation suspends at `await this.deferredReady`, then (with a configured
`shutdownDelayMs >= 0`) sleeps in the pre-shutdown delay; when the delay timer
fires, the continuation runs the guard `if (this.isShuttingDown()) return;`
and - in the same synchronous block - `signalUnhealthy()`,
`this._isShuttingDown = true` and the entry into the phase sequence
(emit shutdown, arm the deadline, drain beacons, run cleanup tasks, arm the
watchdog).  Each invocation is modelled by which suspension point it sits at;
invocations are interchangeable, so the state keeps one counter per
suspension point.  `seqExecutions` counts how many invocations entered the
phase sequence. -/

/-- Global state of the controller together with the multiset of in-flight
`shutdown()` invocations, represented as one counter per suspension point. -/
structure SeqState where
  ready : Bool
  isShuttingDown : Bool
  isHealthy : Bool
  seqExecutions : Nat
  beacons : Nat
  shutdownTasks : Nat
  awaitingReady : Nat
  delaying : Nat
  running : Nat
  doneNoop : Nat
deriving DecidableEq, Repr

/-- Freshly constructed controller: nothing resolved, no invocations. -/
def initSeq : SeqState := ⟨false, false, false, 0, 0, 0, 0, 0, 0, 0⟩

/-- Scheduler events: a new `shutdown()` trigger, the readiness gate
resolving, an invocation resuming from `await deferredReady`, and an
invocation resuming from the pre-shutdown delay (which runs the idempotence
guard in the same synchronous block). -/
inductive SeqLabel
  | trigger
  | becomeReady
  | resumeReady
  | delayResume
deriving DecidableEq, Repr

/-- One event-loop step of the shutdown sequencer. -/
inductive SeqStep : SeqState → SeqLabel → SeqState → Prop
  | trigger (s : SeqState) :
      SeqStep s .trigger { s with awaitingReady := s.awaitingReady + 1 }
  | becomeReady (s : SeqState) (h : s.ready = false) :
      SeqStep s .becomeReady { s with ready := true }
  | resumeReady (s : SeqState) (h : 1 ≤ s.awaitingReady) (hr : s.ready = true) :
      SeqStep s .resumeReady
        { s with awaitingReady := s.awaitingReady - 1,
                 delaying := s.delaying + 1 }
  | delayNoop (s : SeqState) (h : 1 ≤ s.delaying) (hsd : s.isShuttingDown = true) :
      SeqStep s .delayResume
        { s with delaying := s.delaying - 1, doneNoop := s.doneNoop + 1 }
  | delayEnter (s : SeqState) (h : 1 ≤ s.delaying)
      (hsd : s.isShuttingDown = false) :
      SeqStep s .delayResume
        { s with delaying := s.delaying - 1, running := s.running + 1,
                 isShuttingDown := true,
                 isHealthy := if s.ready && !s.isShuttingDown then false
                   else s.isHealthy,
                 seqExecutions := s.seqExecutions + 1 }

/-- States reachable from the freshly constructed controller. -/
inductive SeqReachable : SeqState → Prop
  | init : SeqReachable initSeq
  | step {s s' : SeqState} {l : SeqLabel} :
      SeqReachable s → SeqStep s l s' → SeqReachable s'

/-- `Watchtower.createBeacon` (part_002 lines 180-197): throws when the
shutdown has started, otherwise registers a live beacon. -/
def createBeacon (s : SeqState) : Except String SeqState :=
  if s.isShuttingDown then
    .error "cannot create beacons after the shutdown has started"
  else .ok { s with beacons := s.beacons + 1 }

/-- `Watchtower.registerShutdownTask` (part_002 lines 203-209): throws when
the shutdown has started, otherwise registers the task. -/
def registerShutdownTask (s : SeqState) : Except String SeqState :=
  if s.isShuttingDown then
    .error "cannot register shutdown task after the shutdown has started"
  else .ok { s with shutdownTasks := s.shutdownTasks + 1 }

/-- Demo state: one `shutdown()` trigger has been observed, the gate has
resolved, and the invocation is sleeping in the pre-shutdown delay. -/
def seqDemoDelay : SeqState :=
  { ready := true, isShuttingDown := false, isHealthy := false,
    seqExecutions := 0, beacons := 0, shutdownTasks := 0, awaitingReady := 0,
    delaying := 1, running := 0, doneNoop := 0 }

/-- Demo state: two `shutdown()` triggers, both resumed past the readiness
gate; the first entered the phase sequence, the second is still sleeping in
its own pre-shutdown delay. -/
def seqDemoMid : SeqState :=
  { ready := true, isShuttingDown := true, isHealthy := false,
    seqExecutions := 1, beacons := 0, shutdownTasks := 0, awaitingReady := 0,
    delaying := 1, running := 1, doneNoop := 0 }

/-- Demo state: two `shutdown()` triggers; the first entered the phase
sequence, the second hit the guard while already shutting down. -/
def seqDemoDouble : SeqState :=
  { ready := true, isShuttingDown := true, isHealthy := false,
    seqExecutions := 1, beacons := 0, shutdownTasks := 0, awaitingReady := 0,
    delaying := 0, running := 1, doneNoop := 1 }

end Watchtower

namespace HttpServerManager

/-! ## Connection drain manager (src/HttpServerManager.ts)

The manager observes a live HTTP listener: on `connection` it tracks the
socket and flags it idle; on `request` it flags the socket active, and the
response `finish` handler flags it idle again and - when draining - destroys
it in the same synchronous block.  `close()` flips `isServerClosing`,
destroys every currently idle tracked socket, arms the bounded
`closeActiveConnectionsTimeout` grace timer (which destroys every remaining
tracked socket when it fires), and asks the listener to stop accepting; the
`server.close` callback clears the grace timer once every connection is gone.
Destroyed sockets emit `close`, which untracks them; we collapse destroy and
untrack into one `closed` state.  Sockets are identified by a numeric id. -/

/-- Per-connection state: not yet accepted, tracked and flagged idle, tracked
and flagged active (request in flight), or destroyed/untracked. -/
inductive ConnState
  | notAccepted
  | trackedIdle
  | trackedActive
  | closed
deriving DecidableEq, Repr

/-- State of the drain manager: the draining flag `isServerClosing`, whether
the grace timer is armed, and the state of every connection. -/
structure DrainState where
  closing : Bool
  graceArmed : Bool
  conns : Nat → ConnState

/-- Freshly constructed manager around a live listener. -/
def initDrain : DrainState :=
  { closing := false, graceArmed := false, conns := fun _ => .notAccepted }

/-- Pointwise update of the connection table. -/
def setConn (f : Nat → ConnState) (c : Nat) (v : ConnState) : Nat → ConnState :=
  fun x => if x = c then v else f x

/-- Listener events the manager reacts to. -/
inductive DrainLabel
  | accept (c : Nat)
  | requestStart (c : Nat)
  | requestFinish (c : Nat)
  | closeCall
  | graceFire
  | serverClosed
deriving DecidableEq, Repr

/-- One event-loop step of the drain manager.
`accept`: `onConnection` (lines 87-98) - only while the listener still
accepts, i.e. before `close()`; the socket is tracked and flagged idle.
`requestStart`: `onRequest` (lines 105-109) - the socket is flagged active.
`requestFinish`: the response `finish` handler (lines 111-120) - the socket
is flagged idle and, when draining, destroyed in the same synchronous block.
`closeCall`: `close()` (lines 47-61) - flips the draining flag, destroys
every idle tracked socket, arms the grace timer.
`graceFire`: the grace timer callback (lines 54-60) - destroys every
remaining tracked socket.
`serverClosed`: the `server.close` callback (lines 63-75) - runs once no
tracked connection remains and clears the grace timer. -/
inductive DrainStep : DrainState → DrainLabel → DrainState → Prop
  | accept (s : DrainState) (c : Nat) (hc : s.closing = false)
      (h : s.conns c = .notAccepted) :
      DrainStep s (.accept c) { s with conns := setConn s.conns c .trackedIdle }
  | requestStart (s : DrainState) (c : Nat) (h : s.conns c = .trackedIdle) :
      DrainStep s (.requestStart c)
        { s with conns := setConn s.conns c .trackedActive }
  | requestFinish (s : DrainState) (c : Nat) (h : s.conns c = .trackedActive) :
      DrainStep s (.requestFinish c)
        { s with conns :=
            setConn s.conns c (if s.closing then .closed else .trackedIdle) }
  | closeCall (s : DrainState) (hc : s.closing = false) :
      DrainStep s .closeCall
        { s with closing := true, graceArmed := true,
                 conns := fun c =>
                   if s.conns c = .trackedIdle then .closed else s.conns c }
  | graceFire (s : DrainState) (h : s.graceArmed = true) :
      DrainStep s .graceFire
        { s with graceArmed := false,
                 conns := fun c =>
                   if s.conns c = .trackedIdle ∨ s.conns c = .trackedActive then
                     .closed
                   else s.conns c }
  | serverClosed (s : DrainState) (ha : s.graceArmed = true)
      (h : ∀ c, s.conns c ≠ .trackedIdle ∧ s.conns c ≠ .trackedActive) :
      DrainStep s .serverClosed { s with graceArmed := false }

/-- States reachable from the freshly constructed manager. -/
inductive DrainReachable : DrainState → Prop
  | init : DrainReachable initDrain
  | step {s s' : DrainState} {l : DrainLabel} :
      DrainReachable s → DrainStep s l s' → DrainReachable s'

/-- Demo state: connection 0 accepted and idle, connection 1 accepted with a
request in flight, draining not yet requested. -/
def drainDemoPre : DrainState :=
  { closing := false, graceArmed := false,
    conns := setConn
      (setConn (setConn (fun _ => .notAccepted) 0 .trackedIdle) 1 .trackedIdle)
      1 .trackedActive }

/-- Demo state: `close()` has been called on `drainDemoPre` - the idle
connection 0 was destroyed at once, the active connection 1 survives. -/
def drainDemoPost : DrainState :=
  { drainDemoPre with
    closing := true,
    graceArmed := true,
    conns := fun c =>
      if drainDemoPre.conns c = .trackedIdle then .closed
      else drainDemoPre.conns c }

end HttpServerManager

namespace Watchtower

/-! ## Theorems about the health aggregator -/

/-- C3: the aggregate health query returns `false` whenever `isReady()` is
`false` or shutdown has started (at the start of the call), regardless of the
probe results and of the stored `_isHealthy` flag (hence of prior
`signalHealthy` calls); and whenever the query answers `true`, the controller
was ready and not shutting down both when the call started and when it
returned.  Quantifying over every flag assignment covers in particular every
reachable state. -/
theorem c3_health_false_outside_ready_window :
    ∀ (pre post : HealthFlags) (probes : List ProbeOutcome) (res h : Bool),
      ((pre.isReady = false ∨ pre.isShuttingDown = true) →
        isHealthy pre post probes = .ok (false, pre.isHealthy)) ∧
      (isHealthy pre post probes = .ok (res, h) → res = true →
        pre.isReady = true ∧ pre.isShuttingDown = false ∧
        post.isReady = true ∧ post.isShuttingDown = false) := by
  intro pre post probes res h
  obtain ⟨pr, ph, ps⟩ := pre
  obtain ⟨qr, qh, qs⟩ := post
  constructor
  · rintro (hp | hp) <;> simp_all [isHealthy]
  · intro heq hres
    subst hres
    cases hany : areHealthCheckHandlersPassingE probes with
    | error e =>
      cases pr <;> cases ph <;> cases ps <;> simp_all [isHealthy]
    | ok passed =>
      cases pr <;> cases ph <;> cases ps <;> cases qr <;> cases qs <;>
        simp_all [isHealthy]

/-- C3 witness: at a concrete non-ready state the query returns `false` no
matter the probe results. -/
theorem c3_health_false_outside_ready_window_witness :
    isHealthy ⟨false, true, false⟩ ⟨true, true, false⟩ [ProbeOutcome.ok true] =
      .ok (false, true) :=
  (c3_health_false_outside_ready_window ⟨false, true, false⟩ ⟨true, true, false⟩
    [ProbeOutcome.ok true] false true).1 (Or.inl rfl)

/-- C6: evaluation of the code at the failing input.  With a configured probe
deadline of 1ms and a single probe resolving `true` at 5ms, the deadline
elapses before the probe returns: the stall is reported as a fault, but the
aggregate result is still `true` (healthy) - the timer callback's
`return false` only returns from the callback, so the evaluation is not
fail-closed as the claim (and the emitted message itself) states. -/
theorem c6_deadline_elapsed_still_healthy :
    areHealthCheckHandlersPassing 1 [⟨5, true⟩] =
      (true, ["health check timeout, service deemed unhealthy"]) ∧
    areHealthCheckHandlersPassing 1000 [⟨5, true⟩, ⟨9, true⟩] = (true, []) := by
  constructor <;> rfl

/-- C7 counterexample: with the controller ready and not shutting down, a
single throwing probe makes the health query itself reject - the exception
propagates to the caller instead of being treated as a failing probe. -/
theorem c7_counterexample_probe_throw_propagates :
    isHealthy ⟨true, true, false⟩ ⟨true, true, false⟩
        [ProbeOutcome.thrown, ProbeOutcome.ok true] =
      Except.error "probe rejection" ∧
    isHealthy ⟨true, true, false⟩ ⟨true, true, false⟩
        [ProbeOutcome.thrown, ProbeOutcome.ok true] ≠
      Except.ok (false, true) := by
  refine ⟨rfl, ?_⟩
  intro h
  rw [show isHealthy ⟨true, true, false⟩ ⟨true, true, false⟩
        [ProbeOutcome.thrown, ProbeOutcome.ok true] =
      Except.error "probe rejection" from rfl] at h
  exact Except.noConfusion h

/-- C7 amended: when the controller is ready, not shutting down, and the
stored health flag is `true` (so that the `&&` on line 61 does not
short-circuit and the handlers are actually invoked), any probe that throws
or rejects makes `Promise.all` reject and the rejection propagates out of
`isHealthy()` to its caller (the stored health flag is not updated); the
probe is not treated as a failing probe. -/
theorem c7_amended_probe_throw_rejects_query :
    ∀ (pre post : HealthFlags) (probes : List ProbeOutcome),
      pre.isReady = true → pre.isShuttingDown = false → pre.isHealthy = true →
      probes.any ProbeOutcome.isThrown = true →
      isHealthy pre post probes = Except.error "probe rejection" := by
  intro pre post probes hready hsd hh hany
  simp [isHealthy, hready, hsd, hh, areHealthCheckHandlersPassingE, hany]

/-- C7 amended witness: ready, not shutting down, stored flag `true`, one
throwing probe. -/
theorem c7_amended_probe_throw_rejects_query_witness :
    isHealthy ⟨true, true, false⟩ ⟨true, true, false⟩ [ProbeOutcome.thrown] =
      Except.error "probe rejection" :=
  c7_amended_probe_throw_rejects_query ⟨true, true, false⟩ ⟨true, true, false⟩
    [ProbeOutcome.thrown] rfl rfl rfl rfl

/-! ## Theorems about the beacon registry -/

/-- C8: evaluation of the code at the failing input.  With live beacons
`[1, 2]`, the first `die()` of beacon 1 removes it, but the second `die()` of
beacon 1 is not a no-op: `indexOf` returns `-1`, and `splice(-1, 1)` removes
the LAST element of the array, so beacon 2 is removed from the registry. -/
theorem c8_double_die_removes_other_beacon :
    beaconDie [1, 2] 1 = [2] ∧ beaconDie (beaconDie [1, 2] 1) 1 = [] := by
  decide

/-! ## Theorems about the shutdown cleanup phase -/

/-- C5 counterexample: with two registered shutdown tasks of which the second
rejects, both tasks are invoked, but the rejection propagates out of
`shutdown()` to its caller and the `close` event is never emitted - the
failure does abort the overall shutdown sequence. -/
theorem c5_counterexample_task_failure_propagates :
    (shutdownCleanupPhase [SdTaskOutcome.ok, SdTaskOutcome.failed]).result =
      Except.error "shutdown task failed" ∧
    (shutdownCleanupPhase [SdTaskOutcome.ok, SdTaskOutcome.failed]).closeEmitted =
      false := by
  exact ⟨rfl, rfl⟩

/-- C5 amended: all registered shutdown tasks are invoked concurrently (every
task is started by the `map`, regardless of sibling failures), but if any task
rejects, `Promise.all` rejects: the `close` event is skipped, the graceful
shutdown timer is left uncleared, and the rejection propagates to the caller
of `shutdown()`; only when every task succeeds does the sequence finish with
the `close` event. -/
theorem c5_amended_cleanup_phase :
    ∀ outcomes : List SdTaskOutcome,
      (shutdownCleanupPhase outcomes).tasksInvoked = outcomes.length ∧
      (outcomes.any SdTaskOutcome.isFailed = true →
        (shutdownCleanupPhase outcomes).result = Except.error "shutdown task failed" ∧
        (shutdownCleanupPhase outcomes).closeEmitted = false ∧
        (shutdownCleanupPhase outcomes).gracefulTimeoutCleared = false) ∧
      (outcomes.any SdTaskOutcome.isFailed = false →
        (shutdownCleanupPhase outcomes).result = Except.ok () ∧
        (shutdownCleanupPhase outcomes).closeEmitted = true) := by
  intro outcomes
  cases hfail : outcomes.any SdTaskOutcome.isFailed <;>
    simp [shutdownCleanupPhase, executeShutdownTasks, hfail]

/-- C5 amended witness: both branches at concrete inputs. -/
theorem c5_amended_cleanup_phase_witness :
    ((shutdownCleanupPhase [SdTaskOutcome.failed]).result =
        Except.error "shutdown task failed" ∧
      (shutdownCleanupPhase [SdTaskOutcome.failed]).closeEmitted = false ∧
      (shutdownCleanupPhase [SdTaskOutcome.failed]).gracefulTimeoutCleared = false) ∧
    ((shutdownCleanupPhase [SdTaskOutcome.ok]).result = Except.ok () ∧
      (shutdownCleanupPhase [SdTaskOutcome.ok]).closeEmitted = true) :=
  ⟨(c5_amended_cleanup_phase [SdTaskOutcome.failed]).2.1 rfl,
   (c5_amended_cleanup_phase [SdTaskOutcome.ok]).2.2 rfl⟩

/-! ## Theorems about the readiness gate -/

theorem settleDeferred_of_rejected (s : GateState) (t : Deferred)
    (h : s.deferredReady = .rejected) : settleDeferred s t = s := by
  simp [settleDeferred, h]

theorem settleDeferred_of_resolved (s : GateState) (t : Deferred)
    (h : s.deferredReady = .resolved) : settleDeferred s t = s := by
  simp [settleDeferred, h]

theorem runGate_append (s : GateState) (a b : List GateEvent) :
    runGate s (a ++ b) = runGate (runGate s a) b := by
  simp [runGate, List.foldl_append]

/-- A run of task successes and `ready()` calls that settles fewer tasks than
were queued leaves the gate pending, only decrementing the pending count. -/
theorem runGate_no_failure (t : List GateEvent) : ∀ m : Nat,
    GateEvent.taskFailure ∉ t →
    (t.filter GateEvent.isSettlement).length < m →
    runGate (initGate m) t =
      initGate (m - (t.filter GateEvent.isSettlement).length) := by
  induction t with
  | nil => intro m _ _; simp [runGate]
  | cons e t ih =>
    intro m hnf hlt
    have hnf' : GateEvent.taskFailure ∉ t := fun h => hnf (List.mem_cons_of_mem _ h)
    cases e with
    | taskFailure => exact absurd (List.mem_cons_self _ _) hnf
    | taskSuccess =>
      have hct : (t.filter GateEvent.isSettlement).length + 1 < m := by
        simpa [GateEvent.isSettlement] using hlt
      have hm : (m - 1 == 0) = false := by
        simp only [beq_eq_false_iff_ne, ne_eq]
        omega
      have hstep : gateStep (initGate m) .taskSuccess = initGate (m - 1) := by
        simp [gateStep, initGate, hm]
      have hrest : runGate (initGate m) (GateEvent.taskSuccess :: t) =
          runGate (initGate (m - 1)) t := by
        simp only [runGate, List.foldl_cons]
        rw [hstep]
      rw [hrest, ih (m - 1) hnf' (by omega)]
      have : m - 1 - (t.filter GateEvent.isSettlement).length =
          m - ((GateEvent.taskSuccess :: t).filter GateEvent.isSettlement).length := by
        simp [GateEvent.isSettlement]
        omega
      rw [this]
    | readyCall =>
      have hct : (t.filter GateEvent.isSettlement).length < m := by
        simpa [GateEvent.isSettlement] using hlt
      have hm : (m == 0) = false := by
        simp only [beq_eq_false_iff_ne, ne_eq]
        omega
      have hstep : gateStep (initGate m) .readyCall = initGate m := by
        simp [gateStep, initGate, hm]
      have hrest : runGate (initGate m) (GateEvent.readyCall :: t) =
          runGate (initGate m) t := by
        simp only [runGate, List.foldl_cons]
        rw [hstep]
      rw [hrest, ih m hnf' hct]
      have : (t.filter GateEvent.isSettlement).length =
          ((GateEvent.readyCall :: t).filter GateEvent.isSettlement).length := by
        simp [GateEvent.isSettlement]
      rw [← this]

/-- Once the gate is rejected with exit code 1 and the controller not ready,
no later event changes that: a settled promise never settles again. -/
theorem gateStep_rejected (s : GateState) (e : GateEvent)
    (h1 : s.deferredReady = .rejected) (h2 : s.exitCode = some 1)
    (h3 : s.isReady = false) :
    (gateStep s e).deferredReady = .rejected ∧
      (gateStep s e).exitCode = some 1 ∧ (gateStep s e).isReady = false := by
  cases e with
  | taskSuccess =>
    simp only [gateStep]
    split
    · rw [settleDeferred_of_rejected _ _ (by simpa using h1)]
      simp [h1, h2, h3]
    · simp [h1, h2, h3]
  | taskFailure =>
    simp only [gateStep]
    rw [settleDeferred_of_rejected _ _ (by simpa using h1)]
    simp [h1, h2, h3]
  | readyCall =>
    simp only [gateStep]
    split
    · exact ⟨h1, h2, h3⟩
    · split
      · rw [settleDeferred_of_rejected _ _ (by simpa using h1)]
        exact ⟨h1, h2, h3⟩
      · exact ⟨h1, h2, h3⟩

theorem runGate_rejected_absorbing (t : List GateEvent) : ∀ s : GateState,
    s.deferredReady = .rejected → s.exitCode = some 1 → s.isReady = false →
    (runGate s t).deferredReady = .rejected ∧
      (runGate s t).exitCode = some 1 ∧ (runGate s t).isReady = false := by
  induction t with
  | nil => intro s h1 h2 h3; exact ⟨h1, h2, h3⟩
  | cons e t ih =>
    intro s h1 h2 h3
    obtain ⟨g1, g2, g3⟩ := gateStep_rejected s e h1 h2 h3
    have : runGate s (e :: t) = runGate (gateStep s e) t := by
      simp [runGate]
    rw [this]
    exact ih (gateStep s e) g1 g2 g3

/-- Once the gate is resolved and the controller ready, both stay so. -/
theorem gateStep_resolved (s : GateState) (e : GateEvent)
    (h1 : s.deferredReady = .resolved) (h3 : s.isReady = true) :
    (gateStep s e).deferredReady = .resolved ∧ (gateStep s e).isReady = true := by
  cases e with
  | taskSuccess =>
    simp only [gateStep]
    split
    · rw [settleDeferred_of_resolved _ _ (by simpa using h1)]
      simp [h1, h3]
    · simp [h1, h3]
  | taskFailure =>
    simp only [gateStep]
    rw [settleDeferred_of_resolved _ _ (by simpa using h1)]
    simp [h1, h3]
  | readyCall =>
    simp only [gateStep, h3]
    simp [h1, h3]

theorem runGate_resolved_absorbing (t : List GateEvent) : ∀ s : GateState,
    s.deferredReady = .resolved → s.isReady = true →
    (runGate s t).deferredReady = .resolved ∧ (runGate s t).isReady = true := by
  induction t with
  | nil => intro s h1 h3; exact ⟨h1, h3⟩
  | cons e t ih =>
    intro s h1 h3
    obtain ⟨g1, g3⟩ := gateStep_resolved s e h1 h3
    have : runGate s (e :: t) = runGate (gateStep s e) t := by
      simp [runGate]
    rw [this]
    exact ih (gateStep s e) g1 g3

/-- If every settled task succeeded, all `m` queued tasks settle, and `ready()`
is called (or there was at least one task), the gate resolves and the
controller becomes ready. -/
theorem runGate_success_resolves (t : List GateEvent) : ∀ m : Nat,
    GateEvent.taskFailure ∉ t →
    (t.filter GateEvent.isSettlement).length = m →
    (1 ≤ m ∨ GateEvent.readyCall ∈ t) →
    (runGate (initGate m) t).deferredReady = .resolved ∧
      (runGate (initGate m) t).isReady = true := by
  induction t with
  | nil =>
    intro m _ hm hd
    exfalso
    rcases hd with hd | hd
    · simp at hm; omega
    · simp at hd
  | cons e t ih =>
    intro m hnf hm hd
    have hnf' : GateEvent.taskFailure ∉ t := fun h => hnf (List.mem_cons_of_mem _ h)
    have hcons : runGate (initGate m) (e :: t) =
        runGate (gateStep (initGate m) e) t := by
      simp [runGate]
    cases e with
    | taskFailure => exact absurd (List.mem_cons_self _ _) hnf
    | taskSuccess =>
      have hm' : (t.filter GateEvent.isSettlement).length = m - 1 := by
        simp [GateEvent.isSettlement] at hm
        omega
      have hm1 : 1 ≤ m := by
        simp [GateEvent.isSettlement] at hm
        omega
      by_cases h0 : m - 1 = 0
      · have hstep : gateStep (initGate m) .taskSuccess =
            ⟨.resolved, 0, true, true, true, false, [], none⟩ := by
          simp [gateStep, initGate, settleDeferred, onDeferredSettled, h0]
        rw [hcons, hstep]
        exact runGate_resolved_absorbing t _ rfl rfl
      · have hbeq : (m - 1 == 0) = false := by
          simp only [beq_eq_false_iff_ne, ne_eq]
          omega
        have hstep : gateStep (initGate m) .taskSuccess = initGate (m - 1) := by
          simp [gateStep, initGate, hbeq]
        rw [hcons, hstep]
        exact ih (m - 1) hnf' hm' (Or.inl (by omega))
    | readyCall =>
      have hm' : (t.filter GateEvent.isSettlement).length = m := by
        simpa [GateEvent.isSettlement] using hm
      by_cases h0 : m = 0
      · subst h0
        have hstep : gateStep (initGate 0) .readyCall =
            ⟨.resolved, 0, true, true, true, false, [], none⟩ := by
          simp [gateStep, initGate, settleDeferred, onDeferredSettled]
        rw [hcons, hstep]
        exact runGate_resolved_absorbing t _ rfl rfl
      · have hbeq : (m == 0) = false := by
          simp only [beq_eq_false_iff_ne, ne_eq]
          omega
        have hstep : gateStep (initGate m) .readyCall = initGate m := by
          simp [gateStep, initGate, hbeq]
        rw [hcons, hstep]
        exact ih m hnf' hm' (Or.inl (by omega))

/-- Split a list at the first occurrence of an element. -/
theorem exists_first_split {α : Type} (a : α) (l : List α) (h : a ∈ l) :
    ∃ s t, l = s ++ a :: t ∧ a ∉ s := by
  induction l with
  | nil => cases h
  | cons b l ih =>
    by_cases hb : b = a
    · exact ⟨[], l, by simp [hb], by simp⟩
    · have h' : a ∈ l := by
        rcases List.mem_cons.mp h with h | h
        · exact absurd h.symm hb
        · exact h
      rcases ih h' with ⟨s, t, hst, hns⟩
      refine ⟨b :: s, t, by simp [hst], ?_⟩
      simp only [List.mem_cons, not_or]
      exact ⟨fun hh => hb hh.symm, hns⟩

/-- The rejected-gate state reached when a startup task fails while `k` tasks
are still pending and none failed before. -/
theorem gate_first_failure (k : Nat) :
    runGate (initGate k) [GateEvent.taskFailure] =
      ⟨.rejected, k, false, false, false, false,
        ["startup task failed", "service could not become ready"], some 1⟩ := by
  simp [runGate, gateStep, initGate, settleDeferred, onDeferredSettled]

/-- C1: if any queued startup task rejects (the first rejection occurring
after a failure-free prefix of settlements and `ready()` calls), the gate is
rejected at that very step, the faults `'startup task failed'` and
`'service could not become ready'` are reported, and the process is terminated
with exit code 1; this is independent of the remaining tasks' outcomes: any
continuation `t₂` leaves the gate rejected, the exit code 1 and the controller
never ready.  Conversely - second conjunct - for a run in which all `n` queued
tasks settle and `ready()` is called, the gate resolves successfully if and
only if no task rejected. -/
theorem c1_startup_failure_fails_readiness :
    (∀ (n : Nat) (t₁ t₂ : List GateEvent),
      GateEvent.taskFailure ∉ t₁ →
      (t₁.filter GateEvent.isSettlement).length < n →
      ((runGate (initGate n) (t₁ ++ [GateEvent.taskFailure])).deferredReady =
          Deferred.rejected ∧
        "startup task failed" ∈
          (runGate (initGate n) (t₁ ++ [GateEvent.taskFailure])).errors ∧
        "service could not become ready" ∈
          (runGate (initGate n) (t₁ ++ [GateEvent.taskFailure])).errors ∧
        (runGate (initGate n) (t₁ ++ [GateEvent.taskFailure])).exitCode = some 1) ∧
      ((runGate (initGate n) (t₁ ++ [GateEvent.taskFailure] ++ t₂)).deferredReady =
          Deferred.rejected ∧
        (runGate (initGate n) (t₁ ++ [GateEvent.taskFailure] ++ t₂)).exitCode =
          some 1 ∧
        (runGate (initGate n) (t₁ ++ [GateEvent.taskFailure] ++ t₂)).isReady =
          false)) ∧
    (∀ (n : Nat) (es : List GateEvent),
      (es.filter GateEvent.isSettlement).length = n →
      GateEvent.readyCall ∈ es →
      ((runGate (initGate n) es).deferredReady = Deferred.resolved ↔
        GateEvent.taskFailure ∉ es)) := by
  constructor
  · intro n t₁ t₂ hnf hlt
    have hmid : runGate (initGate n) (t₁ ++ [GateEvent.taskFailure]) =
        ⟨.rejected, n - (t₁.filter GateEvent.isSettlement).length, false, false,
          false, false,
          ["startup task failed", "service could not become ready"], some 1⟩ := by
      rw [runGate_append, runGate_no_failure t₁ n hnf hlt, gate_first_failure]
    refine ⟨?_, ?_⟩
    · rw [hmid]
      exact ⟨rfl, by simp, by simp, rfl⟩
    · rw [runGate_append, hmid]
      exact runGate_rejected_absorbing t₂
        ⟨.rejected, n - (t₁.filter GateEvent.isSettlement).length, false, false,
          false, false,
          ["startup task failed", "service could not become ready"], some 1⟩
        rfl rfl rfl
  · intro n es hcount hready
    constructor
    · intro hres
      by_contra hf
      obtain ⟨s, t, hsplit, hns⟩ := exists_first_split _ es hf
      have hlt : (s.filter GateEvent.isSettlement).length < n := by
        rw [hsplit] at hcount
        simp [GateEvent.isSettlement] at hcount
        omega
      have hes : es = (s ++ [GateEvent.taskFailure]) ++ t := by
        rw [hsplit]; simp
      rw [hes, runGate_append] at hres
      have hmid : runGate (initGate n) (s ++ [GateEvent.taskFailure]) =
          ⟨.rejected, n - (s.filter GateEvent.isSettlement).length, false, false,
            false, false,
            ["startup task failed", "service could not become ready"], some 1⟩ := by
        rw [runGate_append, runGate_no_failure s n hns hlt, gate_first_failure]
      rw [hmid] at hres
      have := (runGate_rejected_absorbing t
        ⟨.rejected, n - (s.filter GateEvent.isSettlement).length, false, false,
          false, false,
          ["startup task failed", "service could not become ready"], some 1⟩
        rfl rfl rfl).1
      rw [hres] at this
      exact Deferred.noConfusion this
    · intro hnf
      exact (runGate_success_resolves es n hnf hcount (Or.inr hready)).1

/-- C1 witness: with two queued tasks of which the first succeeds and the
second rejects, the gate is rejected with both faults reported and exit code
1, whatever happens afterwards; and with one queued task that succeeds before
`ready()` is called, the gate resolves. -/
theorem c1_startup_failure_fails_readiness_witness :
    (((runGate (initGate 2)
          ([GateEvent.taskSuccess] ++ [GateEvent.taskFailure])).deferredReady =
        Deferred.rejected ∧
      "startup task failed" ∈
        (runGate (initGate 2)
          ([GateEvent.taskSuccess] ++ [GateEvent.taskFailure])).errors ∧
      "service could not become ready" ∈
        (runGate (initGate 2)
          ([GateEvent.taskSuccess] ++ [GateEvent.taskFailure])).errors ∧
      (runGate (initGate 2)
          ([GateEvent.taskSuccess] ++ [GateEvent.taskFailure])).exitCode =
        some 1) ∧
     ((runGate (initGate 2)
          ([GateEvent.taskSuccess] ++ [GateEvent.taskFailure] ++
            [GateEvent.taskSuccess])).deferredReady = Deferred.rejected ∧
      (runGate (initGate 2)
          ([GateEvent.taskSuccess] ++ [GateEvent.taskFailure] ++
            [GateEvent.taskSuccess])).exitCode = some 1 ∧
      (runGate (initGate 2)
          ([GateEvent.taskSuccess] ++ [GateEvent.taskFailure] ++
            [GateEvent.taskSuccess])).isReady = false)) ∧
    (runGate (initGate 1)
        [GateEvent.taskSuccess, GateEvent.readyCall]).deferredReady =
      Deferred.resolved :=
  ⟨c1_startup_failure_fails_readiness.1 2 [GateEvent.taskSuccess]
      [GateEvent.taskSuccess] (by decide) (by decide),
   (c1_startup_failure_fails_readiness.2 1
      [GateEvent.taskSuccess, GateEvent.readyCall] (by decide) (by decide)).2
      (by decide)⟩

/-- C9: a `ready()` call on a gate with an empty pending startup-task set (and
not yet ready or shutting down) resolves readiness within that single
event-loop step - the model folds the call together with the microtask
continuations it unblocks, which the event loop drains before any other
scheduled work: no timer or task event is needed.  After the step the
controller reports ready, the `ready` event has fired, the gate is resolved
and health is `true`. -/
theorem c9_ready_with_no_pending_tasks_synchronous :
    ∀ s : GateState,
      s.pendingTasks = 0 → s.deferredReady = .pending →
      s.isReady = false → s.isShuttingDown = false →
      (gateStep s .readyCall).isReady = true ∧
      (gateStep s .readyCall).readyEmitted = true ∧
      (gateStep s .readyCall).isHealthy = true ∧
      (gateStep s .readyCall).deferredReady = .resolved := by
  intro s h0 hp hr hs
  simp [gateStep, hr, hs, h0, settleDeferred, hp, onDeferredSettled]

/-- C9 witness: the freshly constructed controller with zero startup tasks. -/
theorem c9_ready_with_no_pending_tasks_synchronous_witness :
    (gateStep (initGate 0) .readyCall).isReady = true ∧
    (gateStep (initGate 0) .readyCall).readyEmitted = true ∧
    (gateStep (initGate 0) .readyCall).isHealthy = true ∧
    (gateStep (initGate 0) .readyCall).deferredReady = .resolved :=
  c9_ready_with_no_pending_tasks_synchronous (initGate 0) rfl rfl rfl rfl

/-! ## Theorems about the shutdown sequencer -/

/-- Core invariant of the sequencer: the phase sequence was entered once if
the controller is shutting down and never otherwise, because the idempotence
guard and the setting of `_isShuttingDown` run in one synchronous block. -/
theorem seq_invariant : ∀ s : SeqState, SeqReachable s →
    s.seqExecutions = s.running ∧ s.running ≤ 1 ∧
      (s.isShuttingDown = true ↔ s.running = 1) := by
  intro s h
  induction h with
  | init => simp [initSeq]
  | step hr hstep ih =>
    obtain ⟨e1, e2, e3⟩ := ih
    rename_i s _ _
    cases hstep with
    | trigger => exact ⟨e1, e2, e3⟩
    | becomeReady h => exact ⟨e1, e2, e3⟩
    | resumeReady h hr2 => exact ⟨e1, e2, e3⟩
    | delayNoop h hsd => exact ⟨e1, e2, e3⟩
    | delayEnter h hsd =>
      have h0 : s.running = 0 := by
        by_contra hne
        have h1 : s.running = 1 := by omega
        have := e3.mpr h1
        rw [hsd] at this
        exact Bool.noConfusion this
      refine ⟨by simp [e1], by simp [h0], by simp [h0]⟩

/-- C2: shutdown is idempotent.  First conjunct: in every reachable state -
over any number of triggers, by signal or explicit call, in any interleaving -
the phase sequence (mark-unhealthy, drain beacons, run cleanup tasks,
terminate watchdog) has been entered at most once, and exactly once as soon
as the controller is `ShuttingDown`.  Second conjunct: an invocation that
resumes from its delay while the controller is already shutting down is a
no-op - every controller field is left unchanged. -/
theorem c2_shutdown_idempotent :
    (∀ s : SeqState, SeqReachable s →
      s.seqExecutions ≤ 1 ∧ (s.isShuttingDown = true ↔ s.seqExecutions = 1)) ∧
    (∀ s s' : SeqState, SeqStep s SeqLabel.delayResume s' →
      s.isShuttingDown = true →
      s'.isShuttingDown = true ∧ s'.seqExecutions = s.seqExecutions ∧
        s'.isHealthy = s.isHealthy ∧ s'.ready = s.ready ∧
        s'.running = s.running ∧ s'.beacons = s.beacons ∧
        s'.shutdownTasks = s.shutdownTasks) := by
  constructor
  · intro s h
    obtain ⟨e1, e2, e3⟩ := seq_invariant s h
    rw [e1]
    exact ⟨e2, e3⟩
  · intro s s' hstep hsd
    cases hstep with
    | delayNoop h hsd2 => exact ⟨hsd2, rfl, rfl, rfl, rfl, rfl, rfl⟩
    | delayEnter h hsd2 =>
      rw [hsd] at hsd2
      exact Bool.noConfusion hsd2

/-- The double-trigger demo state is reachable. -/
theorem seqDemoDouble_reachable : SeqReachable seqDemoDouble := by
  have h0 : SeqReachable initSeq := SeqReachable.init
  have h1 := SeqReachable.step h0 (SeqStep.trigger initSeq)
  have h2 := SeqReachable.step h1 (SeqStep.trigger _)
  have h3 := SeqReachable.step h2 (SeqStep.becomeReady _ rfl)
  have h4 := SeqReachable.step h3 (SeqStep.resumeReady _ (by decide) rfl)
  have h5 := SeqReachable.step h4 (SeqStep.resumeReady _ (by decide) rfl)
  have h6 := SeqReachable.step h5 (SeqStep.delayEnter _ (by decide) rfl)
  have h7 := SeqReachable.step h6 (SeqStep.delayNoop _ (by decide) rfl)
  exact h7

/-- C2 witness: after two triggers of which one entered the phase sequence
and the other hit the guard, the sequence ran exactly once; the guard hit
changed no controller field. -/
theorem c2_shutdown_idempotent_witness :
    (seqDemoDouble.seqExecutions ≤ 1 ∧
      (seqDemoDouble.isShuttingDown = true ↔ seqDemoDouble.seqExecutions = 1)) ∧
    (seqDemoDouble.isShuttingDown = true ∧
      seqDemoDouble.seqExecutions = seqDemoMid.seqExecutions ∧
      seqDemoDouble.isHealthy = seqDemoMid.isHealthy ∧
      seqDemoDouble.ready = seqDemoMid.ready ∧
      seqDemoDouble.running = seqDemoMid.running ∧
      seqDemoDouble.beacons = seqDemoMid.beacons ∧
      seqDemoDouble.shutdownTasks = seqDemoMid.shutdownTasks) := by
  have hstep : SeqStep seqDemoMid SeqLabel.delayResume seqDemoDouble := by
    have h := SeqStep.delayNoop seqDemoMid (by decide) rfl
    have he : ({ seqDemoMid with
        delaying := seqDemoMid.delaying - 1,
        doneNoop := seqDemoMid.doneNoop + 1 } : SeqState) = seqDemoDouble := by
      decide
    rw [he] at h
    exact h
  exact ⟨c2_shutdown_idempotent.1 seqDemoDouble seqDemoDouble_reachable,
    c2_shutdown_idempotent.2 seqDemoMid seqDemoDouble hstep rfl⟩

/-- C10: in any reachable state in which a `shutdown()` invocation is still
sleeping in the pre-shutdown delay and no invocation has passed the guard,
`isShuttingDown()` still returns `false`, so `createBeacon` and
`registerShutdownTask` are still accepted without error - the registration
windows close only when the flag is set after the delay completes. -/
theorem c10_registration_open_during_delay :
    ∀ s : SeqState, SeqReachable s → 1 ≤ s.delaying → s.running = 0 →
      s.isShuttingDown = false ∧
      createBeacon s = .ok { s with beacons := s.beacons + 1 } ∧
      registerShutdownTask s =
        .ok { s with shutdownTasks := s.shutdownTasks + 1 } := by
  intro s hr hdel hrun
  obtain ⟨e1, e2, e3⟩ := seq_invariant s hr
  have hsd : s.isShuttingDown = false := by
    cases hcase : s.isShuttingDown
    · rfl
    · have := e3.mp hcase
      omega
  exact ⟨hsd, by simp [createBeacon, hsd], by simp [registerShutdownTask, hsd]⟩

/-- The delay-window demo state is reachable. -/
theorem seqDemoDelay_reachable : SeqReachable seqDemoDelay := by
  have h0 : SeqReachable initSeq := SeqReachable.init
  have h1 := SeqReachable.step h0 (SeqStep.trigger initSeq)
  have h2 := SeqReachable.step h1 (SeqStep.becomeReady _ rfl)
  have h3 := SeqReachable.step h2 (SeqStep.resumeReady _ (by decide) rfl)
  exact h3

/-- C10 witness: one trigger sleeping in its delay; both registrations are
accepted. -/
theorem c10_registration_open_during_delay_witness :
    seqDemoDelay.isShuttingDown = false ∧
    createBeacon seqDemoDelay =
      .ok { seqDemoDelay with beacons := seqDemoDelay.beacons + 1 } ∧
    registerShutdownTask seqDemoDelay =
      .ok { seqDemoDelay with
        shutdownTasks := seqDemoDelay.shutdownTasks + 1 } :=
  c10_registration_open_during_delay seqDemoDelay seqDemoDelay_reachable
    (by decide) rfl

end Watchtower

namespace HttpServerManager

/-! ## Theorems about the connection drain manager -/

/-- Once draining has begun, no tracked connection is flagged idle: `close()`
destroys every idle connection at once, and a request finishing during the
drain destroys its connection in the same synchronous block that re-flags it
idle. -/
theorem drain_no_idle_when_closing : ∀ s : DrainState, DrainReachable s →
    s.closing = true → ∀ c, s.conns c ≠ .trackedIdle := by
  intro s h
  induction h with
  | init =>
    intro hc
    exact absurd hc (by simp [initDrain])
  | step hr hstep ih =>
    rename_i s _ _
    cases hstep with
    | accept c0 hcl h0 =>
      intro hc
      rw [show ({ s with conns := setConn s.conns c0 .trackedIdle } :
        DrainState).closing = s.closing from rfl] at hc
      rw [hc] at hcl
      exact Bool.noConfusion hcl
    | requestStart c0 h0 =>
      intro hc c
      exact absurd h0 (ih hc c0)
    | requestFinish c0 h0 =>
      intro hc c
      by_cases hcc : c = c0
      · subst hcc
        simp [setConn, show s.closing = true from hc]
      · simp only [setConn, if_neg hcc]
        exact ih hc c
    | closeCall hc0 =>
      intro _ c
      by_cases hcase : s.conns c = .trackedIdle
      · simp [hcase]
      · simp [hcase]
    | graceFire h0 =>
      intro hc c
      by_cases hcase : s.conns c = .trackedIdle ∨ s.conns c = .trackedActive
      · simp [hcase]
      · simp only [if_neg hcase]
        exact fun heq => hcase (Or.inl heq)
    | serverClosed ha h0 =>
      intro hc c
      exact (h0 c).1

/-- C4, stated as three conjuncts over the drain manager's transition system.
(1) A connection flagged idle at the moment `close()` runs is force-closed by
that very step.  (2) A connection flagged active is closed only by its own
request finishing or by the grace timer firing - no other event destroys it.
(3) In every reachable state, once draining has begun no connection is in
(remains in) the idle state. -/
theorem c4_connection_draining :
    (∀ (s s' : DrainState) (c : Nat), DrainStep s DrainLabel.closeCall s' →
      s.conns c = .trackedIdle → s'.conns c = .closed) ∧
    (∀ (s s' : DrainState) (l : DrainLabel) (c : Nat), DrainStep s l s' →
      s.conns c = .trackedActive → s'.conns c = .closed →
      l = DrainLabel.requestFinish c ∨ l = DrainLabel.graceFire) ∧
    (∀ s : DrainState, DrainReachable s → s.closing = true →
      ∀ c, s.conns c ≠ .trackedIdle) := by
  refine ⟨?_, ?_, drain_no_idle_when_closing⟩
  · intro s s' c hstep hidle
    cases hstep with
    | closeCall hc => simp [hidle]
  · intro s s' l c hstep hact hclosed
    cases hstep with
    | accept c0 hcl h0 =>
      by_cases hcc : c = c0
      · subst hcc
        rw [hact] at h0
        exact ConnState.noConfusion h0
      · simp only [setConn, if_neg hcc] at hclosed
        rw [hact] at hclosed
        exact ConnState.noConfusion hclosed
    | requestStart c0 h0 =>
      by_cases hcc : c = c0
      · subst hcc
        simp [setConn] at hclosed
      · simp only [setConn, if_neg hcc] at hclosed
        rw [hact] at hclosed
        exact ConnState.noConfusion hclosed
    | requestFinish c0 h0 =>
      by_cases hcc : c = c0
      · subst hcc
        exact Or.inl rfl
      · simp only [setConn, if_neg hcc] at hclosed
        rw [hact] at hclosed
        exact ConnState.noConfusion hclosed
    | closeCall hc =>
      simp [hact] at hclosed
    | graceFire h0 =>
      exact Or.inr rfl
    | serverClosed ha h0 =>
      rw [hact] at hclosed
      exact ConnState.noConfusion hclosed

/-- The post-`close()` demo state is reachable: accept connection 0, accept
connection 1, start a request on connection 1, call `close()`. -/
theorem drainDemoPost_reachable : DrainReachable drainDemoPost := by
  have h0 : DrainReachable initDrain := DrainReachable.init
  have h1 := DrainReachable.step h0 (DrainStep.accept initDrain 0 rfl rfl)
  have h2 := DrainReachable.step h1 (DrainStep.accept _ 1 rfl rfl)
  have h3 := DrainReachable.step h2 (DrainStep.requestStart _ 1 rfl)
  have h4 := DrainReachable.step h3 (DrainStep.closeCall _ rfl)
  exact h4

/-- C4 witness: in the demo drain, the idle connection 0 is closed by the
`close()` step itself; the active connection 1 can only be closed by its
request finishing or the grace timer (here: the grace timer); and in the
reachable post-`close()` state no connection is idle. -/
theorem c4_connection_draining_witness :
    drainDemoPost.conns 0 = ConnState.closed ∧
    (DrainLabel.graceFire = DrainLabel.requestFinish 1 ∨
      DrainLabel.graceFire = DrainLabel.graceFire) ∧
    drainDemoPost.conns 1 ≠ ConnState.trackedIdle := by
  refine ⟨?_, ?_, ?_⟩
  · exact c4_connection_draining.1 drainDemoPre drainDemoPost 0
      (DrainStep.closeCall drainDemoPre rfl) (by decide)
  · exact c4_connection_draining.2.1 drainDemoPost _ DrainLabel.graceFire 1
      (DrainStep.graceFire drainDemoPost rfl) (by decide) (by decide)
  · exact c4_connection_draining.2.2 drainDemoPost drainDemoPost_reachable rfl 1

end HttpServerManager
